import Mathlib

/-!
Shallow embedding of the client-side security layer in `src/js/security.js`
(class `WebsiteSecurity`).  DOM state is made explicit:

* a form field (`input` / `textarea`) is a `FieldState` carrying the data the
  validators read (`type`, `value`, `required`, the selected file) together
  with the error-presentation state owned by its parent node (the list of
  `.field-error` annotation texts, in document order) and its `error` CSS class;
* the global notification area is a `NotifState`: the `.security-message`
  elements currently in the document (tagged with a fresh id standing for
  object identity of the created div) and the pending `setTimeout` removals;
* a form, for token injection, is a list of named elements (`FormElem`).

Every definition is translated line by line from the JavaScript source;
stateful methods become functions from state to state.
-/

namespace WebsiteSecurity

/-- JavaScript whitespace (the class matched by `\s` in a regex and stripped
by `String.prototype.trim`): ASCII whitespace, NBSP, the Unicode space
separators, the line separators and the BOM. -/
def isJsWhitespace (c : Char) : Bool :=
  c == ' ' || c == '\t' || c == '\n' || c == '\r' ||
  c == Char.ofNat 11 || c == Char.ofNat 12 ||
  c == Char.ofNat 0xa0 || c == Char.ofNat 0x1680 ||
  (0x2000 ≤ c.toNat && c.toNat ≤ 0x200a) ||
  c == Char.ofNat 0x2028 || c == Char.ofNat 0x2029 ||
  c == Char.ofNat 0x202f || c == Char.ofNat 0x205f ||
  c == Char.ofNat 0x3000 || c == Char.ofNat 0xfeff

/-- `String.prototype.trim`: strip leading and trailing JS whitespace. -/
def jsTrim (s : String) : String :=
  ⟨((s.data.dropWhile isJsWhitespace).reverse.dropWhile isJsWhitespace).reverse⟩

/-- The character class `[^\s@]` of the email regular expression at
`security.js:102`. -/
def atomOk (c : Char) : Bool :=
  !(isJsWhitespace c) && !(c == '@')

/-- Regex combinator: `cs` matches `p+` followed by a remainder accepted by
`k` (one-or-more repetition with backtracking). -/
def plusThen (p : Char → Bool) (k : List Char → Bool) : List Char → Bool
  | [] => false
  | c :: cs => p c && (k cs || plusThen p k cs)

/-- Regex combinator: `cs` matches the literal character `l` followed by a
remainder accepted by `k`. -/
def litThen (l : Char) (k : List Char → Bool) : List Char → Bool
  | [] => false
  | c :: cs => c == l && k cs

/-- `/^[^\s@]+@[^\s@]+\.[^\s@]+$/.test s` — the email pattern of
`security.js:102`. -/
def emailRegexTest (s : String) : Bool :=
  plusThen atomOk
    (litThen '@' (plusThen atomOk (litThen '.' (plusThen atomOk List.isEmpty))))
    s.data

/-- The file selected in a file input (`input.files[0]`): its declared MIME
type (`file.type`) and byte size (`file.size`). -/
structure FileDescriptor where
  mimeType : String
  sizeBytes : Nat
deriving Repr, DecidableEq

/-- An `input`/`textarea` element together with the error-presentation state
attached to it: `errorAnnotations` are the text contents of the
`.field-error` divs under the field's parent node, in document order;
`errorClass` is whether the field's class list contains `error`. -/
structure FieldState where
  type : String
  value : String
  required : Bool
  file : Option FileDescriptor
  errorAnnotations : List String
  errorClass : Bool
deriving Repr, DecidableEq

/-- A transient security message (`Notification` of the spec): its text and
its kind (the `type` argument of `showSecurityMessage`). -/
structure Notification where
  text : String
  kind : String
deriving Repr, DecidableEq

/-- The global notification state: `visible` lists the `.security-message`
divs currently attached to `document.body` (each tagged with a fresh id
standing for the div's object identity), `timers` the pending `setTimeout`
callbacks as pairs (absolute fire time in ms, id of the div to remove). -/
structure NotifState where
  nextId : Nat
  visible : List (Nat × Notification)
  timers : List (Nat × Nat)
deriving Repr, DecidableEq

/-- `showSecurityMessage(message, type)` (`security.js:155-179`): remove all
existing `.security-message` elements, append the new one, and schedule its
auto-removal 5000 ms from now. -/
def showSecurityMessage (ns : NotifState) (message : String) (kind : String)
    (now : Nat) : NotifState :=
  { nextId := ns.nextId + 1
    visible := [(ns.nextId, { text := message, kind := kind })]
    timers := ns.timers ++ [(now + 5000, ns.nextId)] }

/-- The body of the `setTimeout` callback of `security.js:174-178`: if the
message div with identity `i` is still attached (`messageDiv.parentNode`),
remove it; otherwise do nothing. -/
def fireTimer (ns : NotifState) (i : Nat) : NotifState :=
  { ns with visible := ns.visible.filter (fun p => p.1 != i) }

/-- `clearFieldError(field)` (`security.js:147-153`): `querySelector` returns
the first `.field-error` under the parent node and removes it if present;
the `error` class is removed unconditionally. -/
def clearFieldError (st : FieldState) : FieldState :=
  { st with errorAnnotations := st.errorAnnotations.drop 1, errorClass := false }

/-- `showFieldError(field, message)` (`security.js:133-145`): clear any
existing error, append a fresh `.field-error` div holding `message` to the
parent node, and add the `error` class. -/
def showFieldError (st : FieldState) (message : String) : FieldState :=
  let st1 := clearFieldError st
  { st1 with errorAnnotations := st1.errorAnnotations ++ [message]
             errorClass := true }

/-- `validateField(field)` (`security.js:97-117`).  Returns the boolean the
method returns, paired with the field state after the method's UI effects. -/
def validateField (st : FieldState) : Bool × FieldState :=
  let value := jsTrim st.value
  if st.type == "email" && !(value == "") && !(emailRegexTest value) then
    (false, showFieldError st ("Please enter a valid email address"))
  else if st.required && value == "" then
    (false, showFieldError st ("This field is required"))
  else
    (true, clearFieldError st)

/-- `validateForm(form)` (`security.js:119-130`): run `validateField` over
every `input`/`textarea` of the form; the form is valid iff no field
failed. -/
def validateForm (fields : List FieldState) : Bool × List FieldState :=
  let results := fields.map validateField
  (results.all (fun r => r.1), results.map (fun r => r.2))

/-- Outcome of one `submit` event on a form: whether `preventDefault` was
called, the fields after validation, and the notification state. -/
structure SubmitOutcome where
  defaultPrevented : Bool
  fields : List FieldState
  notif : NotifState
deriving Repr, DecidableEq

/-- The submit handler installed by `enhanceFormSecurity`
(`security.js:30-35`): if `validateForm` fails, prevent the default
submission and show the error notification; otherwise let it proceed. -/
def handleSubmit (fields : List FieldState) (ns : NotifState) (now : Nat) :
    SubmitOutcome :=
  let r := validateForm fields
  if !r.1 then
    { defaultPrevented := true
      fields := r.2
      notif := showSecurityMessage ns ("Please fix form errors before submitting.")
                 ("error") now }
  else
    { defaultPrevented := false, fields := r.2, notif := ns }

/-- The MIME allow-list of `security.js:66-72`. -/
def allowedTypes : List String :=
  ["image/jpeg", "image/png", "application/pdf", "application/msword",
   "application/vnd.openxmlformats-officedocument.wordprocessingml.document"]

/-- `maxSize` of `security.js:74`: 5 * 1024 * 1024 bytes. -/
def maxSize : Nat := 5 * 1024 * 1024

/-- The rejection message for a disallowed MIME type (`security.js:79`,
with `maxSizeReadable = "5MB"` interpolated). -/
def invalidTypeMessage : String :=
  "Invalid file type. Allowed: JPG, PNG, PDF, DOC (max 5MB)"

/-- The rejection message for an oversized file (`security.js:86`). -/
def fileTooLargeMessage : String :=
  "File too large. Maximum size is 5MB"

/-- `validateFileUpload(input)` (`security.js:62-94`).  Returns the boolean
result, the file input's state after the method's effects, and the
notification state after them. -/
def validateFileUpload (st : FieldState) (ns : NotifState) (now : Nat) :
    Bool × FieldState × NotifState :=
  match st.file with
  | none => (true, st, ns)
  | some file =>
    if !(allowedTypes.contains file.mimeType) then
      (false, { showFieldError st invalidTypeMessage with value := "" }, ns)
    else if file.sizeBytes > maxSize then
      (false, { showFieldError st fileTooLargeMessage with value := "" }, ns)
    else
      (true, clearFieldError st,
       showSecurityMessage ns ("File looks good!") ("success") now)

/-- An element of a form, for CSRF-token injection: its `name` attribute,
its `type` attribute and its `value`. -/
structure FormElem where
  name : String
  elemType : String
  value : String
deriving Repr, DecidableEq

/-- The token-injection part of `enhanceFormSecurity` (`security.js:21-27`):
if the form has no element named `csrf_token`, append a hidden input with
that name carrying the session token. -/
def injectToken (token : String) (form : List FormElem) : List FormElem :=
  if form.any (fun e => e.name == "csrf_token") then form
  else form ++ [{ name := "csrf_token", elemType := "hidden", value := token }]

/-- `enhanceFormSecurity` iterates token injection over every form of the
page with the single session token (`security.js:17-19`). -/
def enhanceFormSecurity (token : String) (forms : List (List FormElem)) :
    List (List FormElem) :=
  forms.map (injectToken token)

/-- `generateCSRFToken()` (`security.js:235-237`): the fixed prefix, a
pseudo-random base-36 segment and a base-36 timestamp segment; the two
segments are inputs of the model since `Math.random` and `Date.now` are
environment-supplied. -/
def generateCSRFToken (randomSeg : String) (timeSeg : String) : String :=
  "csrf_" ++ randomSeg ++ "_" ++ timeSeg

/-! Concrete sample states used by witnesses and counterexamples. -/

/-- An empty notification area at page load. -/
def emptyNotif : NotifState := { nextId := 0, visible := [], timers := [] }

/-- A file input holding a 6 MiB GIF (wrong type and oversized). -/
def gifLargeField : FieldState :=
  { type := "file", value := "evil.gif", required := false
    file := some { mimeType := "image/gif", sizeBytes := 6291456 }
    errorAnnotations := [], errorClass := false }

/-- A file input holding a 1 KiB GIF (wrong type, size fine). -/
def gifSmallField : FieldState :=
  { type := "file", value := "tiny.gif", required := false
    file := some { mimeType := "image/gif", sizeBytes := 1024 }
    errorAnnotations := [], errorClass := false }

/-- A file input holding a 4 MiB PNG (acceptable). -/
def pngOkField : FieldState :=
  { type := "file", value := "photo.png", required := false
    file := some { mimeType := "image/png", sizeBytes := 4194304 }
    errorAnnotations := [], errorClass := false }

/-- A file input with no selection but a leftover error annotation. -/
def noFileErrField : FieldState :=
  { type := "file", value := "", required := false, file := none
    errorAnnotations := ["old error"], errorClass := true }

/-- A plain optional text field with no error shown. -/
def emptyTextField : FieldState :=
  { type := "text", value := "", required := false, file := none
    errorAnnotations := [], errorClass := false }

/-- An optional email field with a value that fails the email pattern. -/
def emailBadField : FieldState :=
  { type := "email", value := "a@b", required := false, file := none
    errorAnnotations := [], errorClass := false }

/-- A required text field holding only whitespace. -/
def requiredEmptyField : FieldState :=
  { type := "text", value := "  ", required := true, file := none
    errorAnnotations := [], errorClass := false }

/-- A required email field holding only whitespace. -/
def requiredEmailWs : FieldState :=
  { type := "email", value := " ", required := true, file := none
    errorAnnotations := [], errorClass := false }

/-- A form already containing a non-hidden element named csrf_token with a
foreign value. -/
def staleTokenForm : List FormElem :=
  [{ name := "csrf_token", elemType := "text", value := "stale" }]

/-- A form with no element named csrf_token. -/
def plainForm : List FormElem :=
  [{ name := "message", elemType := "text", value := "hello" }]

/-! Helper lemmas shared by the claim theorems. -/

/-- The boolean returned by `validateForm` is the conjunction of the
per-field results. -/
theorem validateForm_fst (fields : List FieldState) :
    (validateForm fields).1 = fields.all (fun f => (validateField f).1) := by
  simp only [validateForm]
  induction fields with
  | nil => rfl
  | cons f fs ih => simp [ih]

/-- The field list produced by `validateForm` is the per-field map of
`validateField`. -/
theorem validateForm_snd (fields : List FieldState) :
    (validateForm fields).2 = fields.map (fun f => (validateField f).2) := by
  simp [validateForm]

/-- When `validateField` fails, it has shown an error on the field: the
`error` class is set and an annotation is present. -/
theorem validateField_fail_shows (f : FieldState) (h : (validateField f).1 = false) :
    (validateField f).2.errorClass = true ∧ (validateField f).2.errorAnnotations ≠ [] := by
  simp only [validateField] at h ⊢
  split at h
  · rename_i hc
    rw [if_pos hc]
    exact ⟨rfl, by simp [showFieldError, clearFieldError]⟩
  · rename_i hc1
    split at h
    · rename_i hc2
      rw [if_neg hc1, if_pos hc2]
      exact ⟨rfl, by simp [showFieldError, clearFieldError]⟩
    · simp at h

/-! Claim theorems. -/

/-- C7: showing an error is idempotent and preserves the at-most-one-annotation
invariant: from a field satisfying the invariant, `showFieldError` called twice
in a row with possibly different messages leaves exactly one error annotation,
containing the second message, and the field marked errored; the existing
annotation is replaced, never stacked. -/
theorem showFieldError_at_most_one (st : FieldState) (m1 m2 : String)
    (hinv : st.errorAnnotations.length ≤ 1) :
    (showFieldError st m1).errorAnnotations = [m1] ∧
    (showFieldError st m1).errorClass = true ∧
    (showFieldError (showFieldError st m1) m2).errorAnnotations = [m2] ∧
    (showFieldError (showFieldError st m1) m2).errorClass = true := by
  have hdrop : st.errorAnnotations.drop 1 = [] := by
    cases hl : st.errorAnnotations with
    | nil => rfl
    | cons a t =>
      cases t with
      | nil => rfl
      | cons b t2 => rw [hl] at hinv; simp at hinv
  refine ⟨?_, rfl, ?_, rfl⟩ <;> simp [showFieldError, clearFieldError, hdrop]

/-- Witness for C7 at a concrete field with one existing annotation. -/
theorem showFieldError_at_most_one_witness :
    (showFieldError noFileErrField ("first")).errorAnnotations = [("first")] ∧
    (showFieldError noFileErrField ("first")).errorClass = true ∧
    (showFieldError (showFieldError noFileErrField ("first")) ("second")).errorAnnotations
      = [("second")] ∧
    (showFieldError (showFieldError noFileErrField ("first")) ("second")).errorClass
      = true :=
  showFieldError_at_most_one noFileErrField ("first") ("second") (by decide)

/-- C8: `showSecurityMessage` evicts every currently displayed notification and
shows exactly the new one, scheduling its removal 5000 ms later; a timer whose
notification is no longer displayed is a safe no-op; and in the concrete
two-notifications-in-quick-succession scenario exactly the second is visible,
the first (stale) timer changes nothing, and after the second timer zero
notifications remain. -/
theorem notification_at_most_one :
    (∀ (ns : NotifState) (msg kind : String) (now : Nat),
        (showSecurityMessage ns msg kind now).visible =
          [(ns.nextId, { text := msg, kind := kind })]) ∧
    (∀ (ns : NotifState) (msg kind : String) (now : Nat),
        (showSecurityMessage ns msg kind now).timers =
          ns.timers ++ [(now + 5000, ns.nextId)]) ∧
    (∀ (ns : NotifState) (i : Nat), (∀ p ∈ ns.visible, p.1 ≠ i) →
        fireTimer ns i = ns) ∧
    ((showSecurityMessage (showSecurityMessage emptyNotif ("msg one") ("error") 0)
        ("msg two") ("error") 100).visible =
      [(1, { text := "msg two", kind := "error" })] ∧
     (showSecurityMessage (showSecurityMessage emptyNotif ("msg one") ("error") 0)
        ("msg two") ("error") 100).timers = [(5000, 0), (5100, 1)] ∧
     fireTimer (showSecurityMessage (showSecurityMessage emptyNotif ("msg one") ("error") 0)
        ("msg two") ("error") 100) 0 =
       showSecurityMessage (showSecurityMessage emptyNotif ("msg one") ("error") 0)
        ("msg two") ("error") 100 ∧
     (fireTimer (fireTimer (showSecurityMessage
        (showSecurityMessage emptyNotif ("msg one") ("error") 0)
        ("msg two") ("error") 100) 0) 1).visible = []) := by
  refine ⟨fun ns msg kind now => rfl, fun ns msg kind now => rfl, ?_,
    by decide, by decide, by decide, by decide⟩
  intro ns i h
  have hfilter : ns.visible.filter (fun p => p.1 != i) = ns.visible :=
    List.filter_eq_self.mpr (fun p hp => by simpa using h p hp)
  simp [fireTimer, hfilter]

/-- Witness for C8's stale-timer clause at a concrete state. -/
theorem notification_at_most_one_witness :
    fireTimer { nextId := 2, visible := [(1, { text := "msg two", kind := "error" })],
                timers := [] } 0 =
      { nextId := 2, visible := [(1, { text := "msg two", kind := "error" })],
        timers := [] } :=
  notification_at_most_one.2.2.1 _ 0 (by decide)

/-- C10: invoked with no file selected, `validateFileUpload` returns accept and
changes nothing: the field (including any leftover error annotation) and the
notification area are untouched — unlike acceptance of a present valid file,
which clears the field error and emits the success notification. -/
theorem validateFileUpload_no_file_noop (st : FieldState) (ns : NotifState) (now : Nat) :
    (st.file = none → validateFileUpload st ns now = (true, st, ns)) ∧
    (∀ f, st.file = some f → allowedTypes.contains f.mimeType = true →
        f.sizeBytes ≤ maxSize →
        validateFileUpload st ns now =
          (true, clearFieldError st,
           showSecurityMessage ns ("File looks good!") ("success") now)) := by
  constructor
  · intro h
    simp [validateFileUpload, h]
  · intro f hf hc hsz
    simp only [validateFileUpload, hf]
    rw [if_neg (by rw [hc]; decide), if_neg (Nat.not_lt.mpr hsz)]

/-- Witness for C10: a no-selection input with a stale error annotation is left
exactly as it was, while a valid 4 MiB PNG clears the error and notifies. -/
theorem validateFileUpload_no_file_noop_witness :
    validateFileUpload noFileErrField emptyNotif 0 = (true, noFileErrField, emptyNotif) ∧
    validateFileUpload pngOkField emptyNotif 0 =
      (true, clearFieldError pngOkField,
       showSecurityMessage emptyNotif ("File looks good!") ("success") 0) :=
  ⟨(validateFileUpload_no_file_noop noFileErrField emptyNotif 0).1 rfl,
   (validateFileUpload_no_file_noop pngOkField emptyNotif 0).2
     { mimeType := "image/png", sizeBytes := 4194304 } rfl (by decide) (by decide)⟩

/-- C9: whenever `validateFileUpload` rejects a selected file (type or size),
the input's `value` is reset to the empty string and the underlying file
descriptor itself is unchanged. -/
theorem validateFileUpload_reject_clears_selection (st : FieldState) (ns : NotifState)
    (now : Nat) (f : FileDescriptor) (hf : st.file = some f)
    (hrej : (validateFileUpload st ns now).1 = false) :
    (validateFileUpload st ns now).2.1.value = "" ∧
    (validateFileUpload st ns now).2.1.file = some f := by
  simp only [validateFileUpload, hf] at hrej ⊢
  by_cases hc : allowedTypes.contains f.mimeType = true
  · rw [if_neg (by rw [hc]; decide)] at hrej ⊢
    by_cases hsz : f.sizeBytes > maxSize
    · rw [if_pos hsz]
      exact ⟨rfl, by simp [showFieldError, clearFieldError, hf]⟩
    · rw [if_neg hsz] at hrej
      simp at hrej
  · have hc2 : allowedTypes.contains f.mimeType = false := by
      simpa using hc
    rw [if_pos (by rw [hc2]; decide)]
    exact ⟨rfl, by simp [showFieldError, clearFieldError, hf]⟩

/-- Witness for C9 at a concrete 1 KiB GIF (type rejection). -/
theorem validateFileUpload_reject_clears_selection_witness :
    (validateFileUpload gifSmallField emptyNotif 0).2.1.value = "" ∧
    (validateFileUpload gifSmallField emptyNotif 0).2.1.file =
      some { mimeType := "image/gif", sizeBytes := 1024 } :=
  validateFileUpload_reject_clears_selection gifSmallField emptyNotif 0
    { mimeType := "image/gif", sizeBytes := 1024 } rfl (by decide)

/-- C2: the file validator accepts iff no file is selected, or the file's MIME
type is in the five-element allow-list and its size does not exceed 5,242,880
bytes (`maxSize` is exactly that number); when both the type and the size rules
are violated, the shown rejection message is the type message. -/
theorem validateFileUpload_accept_iff (st : FieldState) (ns : NotifState) (now : Nat) :
    maxSize = 5242880 ∧
    ((validateFileUpload st ns now).1 =
      match st.file with
      | none => true
      | some f => allowedTypes.contains f.mimeType && decide (f.sizeBytes ≤ 5242880)) ∧
    (∀ f, st.file = some f → allowedTypes.contains f.mimeType = false →
        5242880 < f.sizeBytes →
        (validateFileUpload st ns now).2.1.errorAnnotations.getLast? =
          some invalidTypeMessage) := by
  refine ⟨rfl, ?_, ?_⟩
  · cases hf : st.file with
    | none => simp [validateFileUpload, hf]
    | some f =>
      simp only [validateFileUpload, hf]
      by_cases hc : allowedTypes.contains f.mimeType = true
      · rw [if_neg (by rw [hc]; decide)]
        by_cases hsz : f.sizeBytes > maxSize
        · rw [if_pos hsz]
          simp only [maxSize] at hsz
          rw [hc, Bool.true_and,
            decide_eq_false (show ¬ f.sizeBytes ≤ 5242880 by omega)]
        · rw [if_neg hsz]
          simp only [maxSize] at hsz
          rw [hc, Bool.true_and,
            decide_eq_true (show f.sizeBytes ≤ 5242880 by omega)]
      · have hc2 : allowedTypes.contains f.mimeType = false := by
          simpa using hc
        rw [if_pos (by rw [hc2]; decide), hc2, Bool.false_and]
  · intro f hf hc hsz
    simp only [validateFileUpload, hf]
    rw [if_pos (by rw [hc]; decide)]
    simp [showFieldError, clearFieldError]

/-- Witness for C2's precedence clause: a 6 MiB GIF violates both rules and is
rejected with the type message. -/
theorem validateFileUpload_accept_iff_witness :
    (validateFileUpload gifLargeField emptyNotif 0).2.1.errorAnnotations.getLast? =
      some invalidTypeMessage :=
  (validateFileUpload_accept_iff gifLargeField emptyNotif 0).2.2
    { mimeType := "image/gif", sizeBytes := 6291456 } rfl (by decide) (by decide)

/-- C3: `validateField` applies its rules in order with the first failing rule
winning: an email-typed field whose trimmed value is non-empty and fails the
email pattern is rejected with the email message (whatever `required` is); a
required field whose trimmed value is empty is rejected with the required
message; otherwise the field is accepted and no error is shown. -/
theorem validateField_rules (st : FieldState) :
    (st.type = "email" → jsTrim st.value ≠ "" →
        emailRegexTest (jsTrim st.value) = false →
        validateField st =
          (false, showFieldError st ("Please enter a valid email address"))) ∧
    (st.required = true → jsTrim st.value = "" →
        validateField st = (false, showFieldError st ("This field is required"))) ∧
    ((st.type = "email" → jsTrim st.value ≠ "" →
        emailRegexTest (jsTrim st.value) = true) →
      (st.required = true → jsTrim st.value ≠ "") →
        validateField st = (true, clearFieldError st)) := by
  refine ⟨?_, ?_, ?_⟩
  · intro ht hv hm
    simp only [validateField]
    rw [if_pos (by rw [ht, hm]; simp [hv])]
  · intro hr hv
    simp only [validateField]
    rw [if_neg (by rw [hv]; simp), if_pos (by rw [hr, hv]; simp)]
  · intro h1 h2
    simp only [validateField]
    by_cases hv : jsTrim st.value = ""
    · have hr : st.required = false := by
        cases hreq : st.required with
        | false => rfl
        | true => exact absurd hv (h2 hreq)
      rw [if_neg (by rw [hv]; simp), if_neg (by rw [hr]; simp)]
    · by_cases ht : st.type = "email"
      · have hm : emailRegexTest (jsTrim st.value) = true := h1 ht hv
        rw [if_neg (by rw [hm]; simp), if_neg (by simp [hv])]
      · rw [if_neg (by simp [ht]), if_neg (by simp [hv])]

/-- Witness for C3 at three concrete fields, one per rule. -/
theorem validateField_rules_witness :
    validateField emailBadField =
      (false, showFieldError emailBadField ("Please enter a valid email address")) ∧
    validateField requiredEmptyField =
      (false, showFieldError requiredEmptyField ("This field is required")) ∧
    validateField emptyTextField = (true, clearFieldError emptyTextField) :=
  ⟨(validateField_rules emailBadField).1 rfl (by decide) (by decide),
   (validateField_rules requiredEmptyField).2.1 rfl (by decide),
   (validateField_rules emptyTextField).2.2 (by decide) (by decide)⟩

/-- C4 counterexample: a required email field holding only whitespace is NOT
accepted — `validateField` rejects it with the required-field message, so
acceptance of email fields is not independent of the `required` flag. -/
theorem validateField_required_email_whitespace_rejected :
    (validateField requiredEmailWs).1 = false ∧
    (validateField requiredEmailWs).2.errorAnnotations =
      [("This field is required")] := by
  decide

/-- C4 amended: an email-typed field is accepted iff its trimmed value is empty
and the field is not required, or its trimmed value is non-empty and matches
the email pattern; a whitespace-only value on a required email field is
rejected. -/
theorem validateField_email_accept_iff (st : FieldState) (h : st.type = "email") :
    (validateField st).1 = true ↔
      ((jsTrim st.value = "" ∧ st.required = false) ∨
       (jsTrim st.value ≠ "" ∧ emailRegexTest (jsTrim st.value) = true)) := by
  simp only [validateField]
  by_cases hv : jsTrim st.value = ""
  · rw [if_neg (by rw [hv]; simp)]
    cases hr : st.required with
    | false => rw [if_neg (by simp)]; simp [hv]
    | true => rw [if_pos (by rw [hv]; simp)]; simp [hv]
  · cases hm : emailRegexTest (jsTrim st.value) with
    | true =>
      rw [if_neg (by simp), if_neg (by simp [hv])]
      simp [hv, hm]
    | false =>
      rw [if_pos (by rw [h]; simp [hv])]
      simp [hv, hm]

/-- Witness for C4's amended form at the whitespace-only required email field. -/
theorem validateField_email_accept_iff_witness :
    (validateField requiredEmailWs).1 = true ↔
      ((jsTrim requiredEmailWs.value = "" ∧ requiredEmailWs.required = false) ∨
       (jsTrim requiredEmailWs.value ≠ "" ∧
        emailRegexTest (jsTrim requiredEmailWs.value) = true)) :=
  validateField_email_accept_iff requiredEmailWs rfl

/-- C5 counterexample: `validateField` is not a pure predicate — validating a
field whose value fails the email pattern mutates the field's error state,
attaching the error annotation itself. -/
theorem validateField_not_pure :
    (validateField emailBadField).2 ≠ emailBadField ∧
    (validateField emailBadField).2.errorAnnotations =
      [("Please enter a valid email address")] ∧
    emailBadField.errorAnnotations = [] := by
  decide

/-- C5 amended: `validateField` reads only the field's data (`type`, `value`,
`required`, selection are unchanged) but reflects its verdict into the error
state itself: on success it clears the field's error, on failure it shows the
failing rule's message. -/
theorem validateField_effects (st : FieldState) :
    ((validateField st).2.type = st.type ∧ (validateField st).2.value = st.value ∧
     (validateField st).2.required = st.required ∧
     (validateField st).2.file = st.file) ∧
    ((validateField st).1 = true → (validateField st).2 = clearFieldError st) ∧
    ((validateField st).1 = false →
      ((validateField st).2 =
          showFieldError st ("Please enter a valid email address") ∨
       (validateField st).2 = showFieldError st ("This field is required"))) := by
  simp only [validateField]
  split
  · refine ⟨⟨rfl, rfl, rfl, rfl⟩, ?_, fun _ => Or.inl rfl⟩
    intro h
    simp at h
  · split
    · refine ⟨⟨rfl, rfl, rfl, rfl⟩, ?_, fun _ => Or.inr rfl⟩
      intro h
      simp at h
    · refine ⟨⟨rfl, rfl, rfl, rfl⟩, fun _ => rfl, ?_⟩
      intro h
      simp at h

/-- Witness for C5's amended form at two concrete fields. -/
theorem validateField_effects_witness :
    (validateField emptyTextField).2 = clearFieldError emptyTextField ∧
    ((validateField requiredEmailWs).2 =
        showFieldError requiredEmailWs ("Please enter a valid email address") ∨
     (validateField requiredEmailWs).2 =
        showFieldError requiredEmailWs ("This field is required")) :=
  ⟨(validateField_effects emptyTextField).2.1 (by decide),
   (validateField_effects requiredEmailWs).2.2 (by decide)⟩

/-- C6 counterexample: a form that already holds a non-hidden element named
csrf_token with a foreign value is left untouched by token injection, so after
processing no hidden token field carrying the session token exists. -/
theorem injectToken_preexisting_counterexample :
    injectToken ("csrf_tok_1") staleTokenForm = staleTokenForm ∧
    (injectToken ("csrf_tok_1") staleTokenForm).filter
        (fun e => e.name == "csrf_token" && e.elemType == "hidden" &&
          e.value == "csrf_tok_1") = [] := by
  decide

/-- C6 amended: for every form that does not already contain an element named
csrf_token, processing leaves exactly one csrf_token element — hidden, valued
with the single session token shared by all processed forms — and processing a
second time changes nothing (injection is idempotent, unconditionally). -/
theorem injectToken_fresh_unique_idempotent (token : String)
    (forms : List (List FormElem)) (form : List FormElem)
    (hmem : form ∈ forms) (hfresh : ∀ e ∈ form, e.name ≠ "csrf_token") :
    injectToken token form ∈ enhanceFormSecurity token forms ∧
    (injectToken token form).filter (fun e => e.name == "csrf_token") =
      [{ name := "csrf_token", elemType := "hidden", value := token }] ∧
    injectToken token (injectToken token form) = injectToken token form := by
  have hany : form.any (fun e => e.name == "csrf_token") = false := by
    simp only [List.any_eq_false]
    intro e he
    simpa using hfresh e he
  refine ⟨List.mem_map_of_mem _ hmem, ?_, ?_⟩
  · simp only [injectToken]
    rw [if_neg (by rw [hany]; decide), List.filter_append]
    have h1 : form.filter (fun e => e.name == "csrf_token") = [] := by
      rw [List.filter_eq_nil_iff]
      intro e he
      simpa using hfresh e he
    rw [h1]
    simp
  · by_cases h : form.any (fun e => e.name == "csrf_token") = true
    · simp [injectToken, h]
    · simp [injectToken, h, List.any_append]

/-- Witness for C6's amended form at a concrete fresh form. -/
theorem injectToken_fresh_unique_idempotent_witness :
    injectToken ("csrf_tok_1") plainForm ∈
      enhanceFormSecurity ("csrf_tok_1") [plainForm] ∧
    (injectToken ("csrf_tok_1") plainForm).filter
        (fun e => e.name == "csrf_token") =
      [{ name := "csrf_token", elemType := "hidden", value := "csrf_tok_1" }] ∧
    injectToken ("csrf_tok_1") (injectToken ("csrf_tok_1") plainForm) =
      injectToken ("csrf_tok_1") plainForm :=
  injectToken_fresh_unique_idempotent ("csrf_tok_1") [plainForm] plainForm
    (by decide) (by decide)

/-- C1: on a submit attempt the gatekeeper runs `validateField` over every
field of the form; if any field fails, the default submission is prevented,
every failing field's error is reflected (class set, annotation present) and
the error notification is emitted; if all fields pass, the default submission
proceeds with the notification area untouched. -/
theorem handleSubmit_gatekeeper (fields : List FieldState) (ns : NotifState)
    (now : Nat) :
    (handleSubmit fields ns now).fields =
      fields.map (fun f => (validateField f).2) ∧
    (∀ f ∈ fields, (validateField f).1 = false →
        (validateField f).2.errorClass = true ∧
        (validateField f).2.errorAnnotations ≠ []) ∧
    ((∃ f ∈ fields, (validateField f).1 = false) →
        (handleSubmit fields ns now).defaultPrevented = true ∧
        (handleSubmit fields ns now).notif.visible =
          [(ns.nextId, { text := "Please fix form errors before submitting.",
                         kind := "error" })] ∧
        (handleSubmit fields ns now).notif.timers =
          ns.timers ++ [(now + 5000, ns.nextId)]) ∧
    ((∀ f ∈ fields, (validateField f).1 = true) →
        (handleSubmit fields ns now).defaultPrevented = false ∧
        (handleSubmit fields ns now).notif = ns) := by
  refine ⟨?_, fun f hf h => validateField_fail_shows f h, ?_, ?_⟩
  · have hfields : (handleSubmit fields ns now).fields = (validateForm fields).2 := by
      simp only [handleSubmit]
      split <;> rfl
    rw [hfields, validateForm_snd]
  · rintro ⟨f, hf, hfail⟩
    have hall : fields.all (fun g => (validateField g).1) = false := by
      cases hb : fields.all (fun g => (validateField g).1) with
      | false => rfl
      | true =>
        have := List.all_eq_true.mp hb f hf
        rw [hfail] at this
        exact absurd this (by decide)
    simp only [handleSubmit]
    rw [if_pos (by rw [validateForm_fst, hall]; decide)]
    exact ⟨rfl, rfl, rfl⟩
  · intro hpass
    have hall : fields.all (fun g => (validateField g).1) = true :=
      List.all_eq_true.mpr hpass
    simp only [handleSubmit]
    rw [if_neg (by rw [validateForm_fst, hall]; decide)]
    exact ⟨rfl, rfl⟩

/-- Witness for C1: a form with one failing field is blocked, a form with one
passing field is allowed through. -/
theorem handleSubmit_gatekeeper_witness :
    (handleSubmit [requiredEmailWs] emptyNotif 0).defaultPrevented = true ∧
    (handleSubmit [emptyTextField] emptyNotif 0).defaultPrevented = false :=
  ⟨((handleSubmit_gatekeeper [requiredEmailWs] emptyNotif 0).2.2.1
      ⟨requiredEmailWs, by decide, by decide⟩).1,
   ((handleSubmit_gatekeeper [emptyTextField] emptyNotif 0).2.2.2
      (by decide)).1⟩

end WebsiteSecurity
